import Mathlib

/-!
Verification development for the Gerrit code-review MCP server.

The definitions below are a shallow embedding of the decision logic in
`src/server.py` (revision resolution, file diff aggregation, patchset
comparison, inline comment degradation, transport response handling) and,
where the repository ships only tests for a function, a model built from
the specification (review comment normalization and review submission).

External collaborators (the HTTP library, the regular-expression engine,
the JSON parser) are passed in as function parameters: the embedding is
parametric in their behaviour, exactly as the source treats them as
black boxes.
-/

namespace GerritMCP

/-- Error taxonomy of the specification, layered over the Python
`ValueError`/`Exception` values raised by the source; each constructor
carries the message text of the underlying exception. -/
inductive GerritError where
  | notFound (msg : String)
  | validation (msg : String)
  | auth (msg : String)
  | transport (msg : String)
deriving Repr, DecidableEq

/-- Python `str(e)` for an exception value: the carried message text. -/
def GerritError.text : GerritError → String
  | .notFound m => m
  | .validation m => m
  | .auth m => m
  | .transport m => m

/-- Python truthiness of an `Optional[str]` value: `None` and the empty
string are falsy, every other string is truthy. -/
def pyTruthyStrOpt : Option String → Bool
  | none => false
  | some s => !s.isEmpty

/-- Python `str()` conversion of an optional integer field, as in
`str(rev_info.get("_number"))`: a missing key prints as `None`. -/
def pyStrOptInt : Option Int → String
  | none => "None"
  | some n => toString n

/-- Python `str()` conversion of an `Optional[str]` value, as in
`str(patchset_number)`. -/
def pyStrOptStr : Option String → String
  | none => "None"
  | some s => s

/-- Boolean string comparison used to model the Python builtin `sorted`
on lists of strings (lexicographic by code point). -/
def strLeB (a b : String) : Bool := decide (a ≤ b)

/-- Python `sorted` on a list of strings. -/
def pySortedStr (l : List String) : List String := l.mergeSort strLeB

/-- File metadata of one entry of a Gerrit file mapping, mirroring the
keys the source reads with `.get`; a `none` field models an absent key. -/
structure FileInfo where
  status : Option String
  lines_inserted : Option Int
  lines_deleted : Option Int
  size_delta : Option Int
deriving Repr, DecidableEq

/-- Revision metadata: the `_number` patchset number (absent key modelled
as `none`) and the `files` mapping in iteration order. -/
structure RevInfo where
  number : Option Int
  files : List (String × FileInfo)
deriving Repr, DecidableEq

/-- Change detail response: the fields of the JSON object the source
reads; the revisions mapping keeps the iteration order of the JSON
object. -/
structure ChangeDetail where
  project : Option String
  current_revision : Option String
  revisions : List (String × RevInfo)
deriving Repr, DecidableEq

/-- Sorted list of available patchset numbers, as strings, built as in
`sorted([str(info.get("_number")) for info in revisions.values()])`. -/
def availablePatchsets (revisions : List (String × RevInfo)) : List String :=
  pySortedStr (revisions.map (fun p => pyStrOptInt p.2.number))

/-- Error message of the patchset lookup failure in `fetch_gerrit_change`. -/
def patchsetNotFoundMsg (ps : String) (revisions : List (String × RevInfo)) : String :=
  "Patchset " ++ ps ++ " not found. Available patchsets: " ++
    String.intercalate ", " (availablePatchsets revisions)

/-- Revision resolution block of `fetch_gerrit_change` (src/server.py,
lines 188 to 209): a truthy patchset number selects the first revision
whose stringified `_number` equals the stringified request, a falsy one
selects `current_revision`; the chosen revision must be truthy and a key
of the revisions mapping, and its `RevInfo` is looked up. -/
def resolveTargetRevision (current_revision : Option String)
    (revisions : List (String × RevInfo)) (patchset_number : Option String) :
    Except GerritError (String × RevInfo) :=
  let step : Except GerritError (Option String) :=
    if pyTruthyStrOpt patchset_number then
      match revisions.find? (fun p => pyStrOptInt p.2.number == pyStrOptStr patchset_number) with
      | some p => Except.ok (some p.1)
      | none => Except.error (GerritError.notFound
          (patchsetNotFoundMsg (pyStrOptStr patchset_number) revisions))
    else
      Except.ok current_revision
  match step with
  | Except.error e => Except.error e
  | Except.ok target =>
    if pyTruthyStrOpt target then
      match revisions.find? (fun p => p.1 == target.getD "") with
      | some p => Except.ok (target.getD "", p.2)
      | none => Except.error (GerritError.notFound "Revision information not found")
    else
      Except.error (GerritError.notFound "Revision information not found")

/-- Processed file entry of the aggregation result, mirroring the
`file_data` dictionary of the source; `δ` is the opaque diff body type. -/
structure ProcessedFile (δ : Type) where
  path : String
  status : String
  lines_inserted : Int
  lines_deleted : Int
  size_delta : Int
  diff : δ
deriving Repr, DecidableEq

/-- Excluded file entry of the aggregation result, annotated with the
exclusion reason. -/
structure ExcludedFile where
  path : String
  status : String
  lines_inserted : Int
  lines_deleted : Int
  size_delta : Int
  exclude_reason : String
deriving Repr, DecidableEq

/-- First exclusion pattern that matches the path, in configured order;
`search` is the external regular-expression engine (`re.search`). -/
def findExcludePattern (search : String → String → Bool)
    (patterns : List String) (path : String) : Option String :=
  patterns.find? (fun pat => search pat path)

/-- Excluded file record built by the aggregation loop. -/
def mkExcludedFile (path : String) (info : FileInfo) (pattern : String) : ExcludedFile :=
  { path := path
    status := info.status.getD "MODIFIED"
    lines_inserted := info.lines_inserted.getD 0
    lines_deleted := info.lines_deleted.getD 0
    size_delta := info.size_delta.getD 0
    exclude_reason := "Excluded pattern: " ++ pattern }

/-- Processed file record built by the aggregation loop. -/
def mkProcessedFile {δ : Type} (path : String) (info : FileInfo) (d : δ) : ProcessedFile δ :=
  { path := path
    status := info.status.getD "MODIFIED"
    lines_inserted := info.lines_inserted.getD 0
    lines_deleted := info.lines_deleted.getD 0
    size_delta := info.size_delta.getD 0
    diff := d }

/-- File aggregation loop of `fetch_gerrit_change` (src/server.py, lines
222 to 261): skip the synthetic commit-message entry, exclude a file on
the first matching pattern, otherwise fetch its diff (a fetch failure
propagates and aborts the whole aggregation). -/
def processFiles {δ : Type} (search : String → String → Bool)
    (fetchDiff : String → Except GerritError δ)
    (patterns : List String) (files : List (String × FileInfo)) :
    Except GerritError (List (ProcessedFile δ) × List ExcludedFile) :=
  match files with
  | [] => Except.ok ([], [])
  | (path, info) :: rest =>
    if path == "/COMMIT_MSG" then
      processFiles search fetchDiff patterns rest
    else
      match findExcludePattern search patterns path with
      | some pat =>
        match processFiles search fetchDiff patterns rest with
        | Except.ok (proc, excl) => Except.ok (proc, mkExcludedFile path info pat :: excl)
        | Except.error e => Except.error e
      | none =>
        match fetchDiff path with
        | Except.error e => Except.error e
        | Except.ok d =>
          match processFiles search fetchDiff patterns rest with
          | Except.ok (proc, excl) => Except.ok (mkProcessedFile path info d :: proc, excl)
          | Except.error e => Except.error e

/-- Uppercase hexadecimal digit for percent-encoding. -/
def hexUpper (n : Nat) : Char :=
  if n < 10 then Char.ofNat (48 + n) else Char.ofNat (55 + n)

/-- Percent-encoding of one UTF-8 byte as done by `urllib.parse.quote`
with an empty safe set: letters, digits and `_.-~` stay, every other
byte becomes a percent escape with uppercase hex digits. -/
def quoteByte (b : UInt8) : String :=
  let n := b.toNat
  if (65 ≤ n ∧ n ≤ 90) ∨ (97 ≤ n ∧ n ≤ 122) ∨ (48 ≤ n ∧ n ≤ 57) ∨
      n = 45 ∨ n = 46 ∨ n = 95 ∨ n = 126 then
    String.singleton (Char.ofNat n)
  else
    "%" ++ String.singleton (hexUpper (n / 16)) ++ String.singleton (hexUpper (n % 16))

/-- Model of `urllib.parse.quote(s, safe=<empty>)`. -/
def pyQuote (s : String) : String :=
  String.join (s.toUTF8.toList.map quoteByte)

/-- Change detail endpoint requested by `fetch_gerrit_change`. -/
def changeDetailEndpoint (change_id : String) : String :=
  "a/changes/" ++ change_id ++
    "/detail?o=CURRENT_REVISION&o=CURRENT_COMMIT&o=MESSAGES&o=DETAILED_LABELS&o=DETAILED_ACCOUNTS&o=ALL_REVISIONS&o=ALL_COMMITS&o=ALL_FILES&o=COMMIT_FOOTERS"

/-- Per-file diff endpoint with a percent-encoded file path. -/
def fileDiffEndpoint (change_id target_revision path : String) : String :=
  "a/changes/" ++ change_id ++ "/revisions/" ++ target_revision ++ "/files/" ++
    pyQuote path ++ "/diff"

/-- Inline comments endpoint for a resolved revision. -/
def commentsEndpoint (change_id target_revision : String) : String :=
  "a/changes/" ++ change_id ++ "/revisions/" ++ target_revision ++ "/comments"

/-- Capacity note attached to the result when files were excluded. -/
def excludedNote (n : Nat) : String :=
  "Excluded " ++ toString n ++
    " large files to prevent infinite loops. Use fetch_patchset_diff for specific large files."

/-- Result shape of `fetch_gerrit_change`; `γ` is the opaque per-file
comment thread type of the comments response. -/
structure FetchChangeResult (δ γ : Type) where
  change_info : ChangeDetail
  project : String
  revision : String
  patchset : RevInfo
  files : List (ProcessedFile δ)
  inline_comments : List (String × γ)
  excluded_large_files : Option (List ExcludedFile)
  note : Option String
deriving DecidableEq

/-- Primary flow of `fetch_gerrit_change` (src/server.py, lines 176 to
261): fetch and check the change detail, check the project field,
resolve the target revision, and run the file aggregation loop. The
transport is passed in as the already-obtained change detail response
plus a per-endpoint diff oracle. -/
def fetch_gerrit_change_core {δ : Type}
    (changeResp : Except GerritError (Option ChangeDetail))
    (search : String → String → Bool)
    (diffResp : String → Except GerritError δ)
    (patterns : List String)
    (change_id : String) (patchset_number : Option String) :
    Except GerritError (ChangeDetail × String × RevInfo × List (ProcessedFile δ) × List ExcludedFile) :=
  match changeResp with
  | Except.error e => Except.error e
  | Except.ok none => Except.error (GerritError.notFound ("Change " ++ change_id ++ " not found"))
  | Except.ok (some ci) =>
    if pyTruthyStrOpt ci.project then
      match resolveTargetRevision ci.current_revision ci.revisions patchset_number with
      | Except.error e => Except.error e
      | Except.ok (target, revInfo) =>
        match processFiles search (fun path => diffResp (fileDiffEndpoint change_id target path))
            patterns revInfo.files with
        | Except.error e => Except.error e
        | Except.ok (proc, excl) => Except.ok (ci, target, revInfo, proc, excl)
    else
      Except.error (GerritError.notFound "Project information not found in change")

/-- Full `fetch_gerrit_change` (src/server.py, lines 164 to 287): the
primary flow followed by the best-effort inline comment fetch; the
second component is the list of warning messages logged. -/
def fetch_gerrit_change {δ γ : Type}
    (changeResp : Except GerritError (Option ChangeDetail))
    (search : String → String → Bool)
    (diffResp : String → Except GerritError δ)
    (commentsResp : String → Except GerritError (List (String × γ)))
    (patterns : List String)
    (change_id : String) (patchset_number : Option String) (include_comments : Bool) :
    Except GerritError (FetchChangeResult δ γ) × List String :=
  match fetch_gerrit_change_core changeResp search diffResp patterns change_id patchset_number with
  | Except.error e => (Except.error e, [])
  | Except.ok (ci, target, revInfo, proc, excl) =>
    let cw : List (String × γ) × List String :=
      if include_comments then
        match commentsResp (commentsEndpoint change_id target) with
        | Except.ok m => (m, [])
        | Except.error e =>
          ([], ["Failed to fetch inline comments for change " ++ change_id ++ ": " ++ e.text])
      else ([], [])
    (Except.ok
      { change_info := ci
        project := ci.project.getD ""
        revision := target
        patchset := revInfo
        files := proc
        inline_comments := cw.1
        excluded_large_files := if excl.isEmpty then none else some excl
        note := if excl.isEmpty then none else some (excludedNote excl.length) }, cw.2)

/-- Changed file entry of the patchset comparison result. -/
structure ChangedFile (δ : Type) where
  status : String
  lines_inserted : Int
  lines_deleted : Int
  size_delta : Int
  diff : δ
deriving Repr, DecidableEq

/-- Result shape of `fetch_patchset_diff`. -/
structure PatchsetDiffResult (δ : Type) where
  base_revision : String
  target_revision : String
  base_patchset : String
  target_patchset : String
  files : List (String × ChangedFile δ)
deriving Repr, DecidableEq

/-- Change detail endpoint requested by `fetch_patchset_diff`. -/
def patchsetDetailEndpoint (change_id : String) : String :=
  "a/changes/" ++ change_id ++ "/detail?o=ALL_REVISIONS&o=ALL_FILES"

/-- Revision scan of `fetch_patchset_diff` (src/server.py, lines 313 to
319): one pass over the revisions without an early break, so the last
entry whose stringified `_number` equals the request wins. -/
def scanRevisions (revisions : List (String × RevInfo)) (ps : String) : Option String :=
  revisions.foldl (fun acc p => if pyStrOptInt p.2.number == ps then some p.1 else acc) none

/-- Error message of the patchset lookup failure in `fetch_patchset_diff`. -/
def patchsetsNotFoundMsg (revisions : List (String × RevInfo)) : String :=
  "Patchset(s) not found. Available patchsets: " ++
    String.intercalate ", " (availablePatchsets revisions)

/-- Comparison endpoint of the target revision against the base revision. -/
def filesCompareEndpoint (change_id target_revision base_revision : String) : String :=
  "a/changes/" ++ change_id ++ "/revisions/" ++ target_revision ++ "/files" ++
    (if base_revision.isEmpty then "" else "?base=" ++ base_revision)

/-- Per-file diff endpoint with the base-revision qualifier. -/
def fileDiffEndpointBase (change_id target_revision path base_revision : String) : String :=
  fileDiffEndpoint change_id target_revision path ++
    (if base_revision.isEmpty then "" else "?base=" ++ base_revision)

/-- Changed file record built by the comparison loop. -/
def mkChangedFile {δ : Type} (info : FileInfo) (d : δ) : ChangedFile δ :=
  { status := info.status.getD "MODIFIED"
    lines_inserted := info.lines_inserted.getD 0
    lines_deleted := info.lines_deleted.getD 0
    size_delta := info.size_delta.getD 0
    diff := d }

/-- Per-file loop of `fetch_patchset_diff` (src/server.py, lines 332 to
352): skip the synthetic commit-message entry and files whose status is
SAME, fetch the base-scoped diff of every remaining file (a failure
propagates), and collect the issued endpoints as the request trace. -/
def collectChangedFiles {δ : Type} (diffResp : String → Except GerritError δ)
    (change_id target_revision base_revision : String)
    (fs : List (String × FileInfo)) :
    Except GerritError (List (String × ChangedFile δ)) × List String :=
  match fs with
  | [] => (Except.ok [], [])
  | (path, info) :: rest =>
    if path == "/COMMIT_MSG" then
      collectChangedFiles diffResp change_id target_revision base_revision rest
    else if info.status == some "SAME" then
      collectChangedFiles diffResp change_id target_revision base_revision rest
    else
      let ep := fileDiffEndpointBase change_id target_revision path base_revision
      match diffResp ep with
      | Except.error e => (Except.error e, [ep])
      | Except.ok d =>
        let r := collectChangedFiles diffResp change_id target_revision base_revision rest
        (r.1.map (fun l => (path, mkChangedFile info d) :: l), ep :: r.2)

/-- Full `fetch_patchset_diff` (src/server.py, lines 290 to 360): fetch
the change detail, scan for both patchset numbers, fetch the server-side
base-to-target file comparison, then the per-file loop. The second
component is the trace of transport endpoints issued, in order. The
`file_path` parameter of the source is shadowed by the loop variable of
the comparison loop before it is ever read, and is therefore unused. -/
def fetch_patchset_diff {δ : Type}
    (changeResp : Except GerritError (Option ChangeDetail))
    (filesResp : String → Except GerritError (List (String × FileInfo)))
    (diffResp : String → Except GerritError δ)
    (change_id base_patchset target_patchset : String) (file_path : Option String) :
    Except GerritError (PatchsetDiffResult δ) × List String :=
  let _unused := file_path
  let trace0 := [patchsetDetailEndpoint change_id]
  match changeResp with
  | Except.error e => (Except.error e, trace0)
  | Except.ok none =>
    (Except.error (GerritError.notFound ("Change " ++ change_id ++ " not found")), trace0)
  | Except.ok (some ci) =>
    let base := scanRevisions ci.revisions base_patchset
    let target := scanRevisions ci.revisions target_patchset
    if pyTruthyStrOpt base ∧ pyTruthyStrOpt target then
      let baseRev := base.getD ""
      let targetRev := target.getD ""
      let filesEp := filesCompareEndpoint change_id targetRev baseRev
      match filesResp filesEp with
      | Except.error e => (Except.error e, trace0 ++ [filesEp])
      | Except.ok fs =>
        let r := collectChangedFiles diffResp change_id targetRev baseRev fs
        (r.1.map (fun changed =>
          { base_revision := baseRev
            target_revision := targetRev
            base_patchset := base_patchset
            target_patchset := target_patchset
            files := changed }), trace0 ++ [filesEp] ++ r.2)
    else
      (Except.error (GerritError.notFound (patchsetsNotFoundMsg ci.revisions)), trace0)

/-- HTTP response as seen by the transport adapter. -/
structure HttpResponse where
  status : Nat
  text : String
deriving Repr, DecidableEq

/-- Outcome of the underlying `requests.get` call: either a transport
level failure with its cause text, or a response. -/
inductive HttpOutcome where
  | failure (cause : String)
  | response (resp : HttpResponse)
deriving Repr, DecidableEq

/-- The fixed 4-character XSSI guard some Gerrit responses start with. -/
def xssiMagic : String := ")]\x7d" ++ String.singleton (Char.ofNat 39)

/-- Whether the first character list starts the second one. -/
def charsStart : List Char → List Char → Bool
  | [], _ => true
  | _ :: _, [] => false
  | a :: as, b :: bs => a == b && charsStart as bs

/-- Whether the first character list occurs inside the second one. -/
def charsInside (p : List Char) : List Char → Bool
  | [] => charsStart p []
  | b :: bs => charsStart p (b :: bs) || charsInside p bs

/-- Substring search used to instantiate the abstract pattern engine in
concrete evaluations. -/
def containsSub (pat s : String) : Bool := charsInside pat.toList s.toList

/-- Strip the XSSI guard from a response body when present; Python
slicing of `content` from index 4 drops the first four code points. -/
def stripXssi (s : String) : String :=
  if charsStart xssiMagic.toList s.toList then String.mk (s.toList.drop 4) else s

/-- Transport adapter response handling of `make_gerrit_rest_request`
(src/server.py, lines 89 to 118): a 401 status fails with the
authentication error; any other 4xx or 5xx status raises inside the
HTTP library and is wrapped as a transport failure, as is a failure of
the request itself; otherwise the body is parsed as JSON after the XSSI
guard is stripped, a parse failure wrapping the parser message. The
JSON parser and the HTTP error text are the external collaborators. -/
def make_gerrit_rest_request {α : Type}
    (parseJson : String → Except String α)
    (httpErrText : HttpResponse → String)
    (outcome : HttpOutcome) : Except GerritError α :=
  match outcome with
  | HttpOutcome.failure cause =>
    Except.error (GerritError.transport ("Failed to make Gerrit REST API request: " ++ cause))
  | HttpOutcome.response resp =>
    if resp.status == 401 then
      Except.error (GerritError.auth
        "Authentication failed. Please check your Gerrit HTTP password in your account settings.")
    else if 400 ≤ resp.status ∧ resp.status < 600 then
      Except.error (GerritError.transport
        ("Failed to make Gerrit REST API request: " ++ httpErrText resp))
    else
      match parseJson (stripXssi resp.text) with
      | Except.ok v => Except.ok v
      | Except.error e =>
        Except.error (GerritError.transport ("Failed to parse Gerrit response as JSON: " ++ e))

/-- Structured four-field span of a range comment. -/
structure Span where
  start_line : Int
  start_character : Int
  end_line : Int
  end_character : Int
deriving Repr, DecidableEq

/-- Client-supplied value of the `range` field: either a well-formed
four-field span object, or some other malformed value (such as a plain
string). -/
inductive RangeInput where
  | span (s : Span)
  | malformed (raw : String)
deriving Repr, DecidableEq

/-- Client-supplied review comment record; absent keys are `none`. -/
structure CommentInput where
  path : Option String
  line : Option Int
  range : Option RangeInput
  message : String
deriving Repr, DecidableEq

/-- Comment entry of the built submission mapping: only the message and
the line or span are retained, the path is the group key and is not
repeated inside the entry. -/
structure BuiltComment where
  line : Option Int
  range : Option Span
  message : String
deriving Repr, DecidableEq

/-- Validation message for a missing or empty comment path. -/
def pathValidationMsg : String := "Each review comment requires a non-empty path"

/-- Validation message for a non-positive comment line. -/
def lineValidationMsg : String := "Review comment line must be a positive integer"

/-- Validation message for a malformed comment range. -/
def rangeValidationMsg : String := "Review comment range must be a well-formed span object"

/-- Modelled from the spec: the range check of `build_review_comments`,
a function absent from src/ (only src/tests/test_submit_review.py
imports it); a present range must be a well-formed span object, else the
validation fails naming the range field. -/
def checkRangeInput : Option RangeInput → Except GerritError (Option Span)
  | none => Except.ok none
  | some (RangeInput.span s) => Except.ok (some s)
  | some (RangeInput.malformed _) => Except.error (GerritError.validation rangeValidationMsg)

/-- Modelled from the spec: per-entry validation and stripping of
`build_review_comments`, a function absent from src/; the checks run in
the order path, line, range, and the entry retains only the message plus
the line when present, else the span when present. -/
def buildOneComment (c : CommentInput) : Except GerritError (String × BuiltComment) :=
  if pyTruthyStrOpt c.path then
    match c.line with
    | some n =>
      if 0 < n then
        match checkRangeInput c.range with
        | Except.ok _ => Except.ok (c.path.getD "", { line := some n, range := none, message := c.message })
        | Except.error e => Except.error e
      else
        Except.error (GerritError.validation lineValidationMsg)
    | none =>
      match checkRangeInput c.range with
      | Except.ok r => Except.ok (c.path.getD "", { line := none, range := r, message := c.message })
      | Except.error e => Except.error e
  else
    Except.error (GerritError.validation pathValidationMsg)

/-- Insertion into the ordered-by-insertion grouping: append to the
group of the path when one exists, else open a new group at the end. -/
def insertComment (m : List (String × List BuiltComment)) (p : String) (e : BuiltComment) :
    List (String × List BuiltComment) :=
  match m with
  | [] => [(p, [e])]
  | (q, l) :: rest =>
    if q == p then (q, l ++ [e]) :: rest else (q, l) :: insertComment rest p e

/-- Modelled from the spec: the sequential grouping loop of
`build_review_comments`, a function absent from src/; entries are
validated and inserted one by one, the first invalid entry aborting. -/
def buildCommentsLoop : List CommentInput → List (String × List BuiltComment) →
    Except GerritError (List (String × List BuiltComment))
  | [], acc => Except.ok acc
  | c :: rest, acc =>
    match buildOneComment c with
    | Except.error e => Except.error e
    | Except.ok (p, e) => buildCommentsLoop rest (insertComment acc p e)

/-- Modelled from the spec: `build_review_comments` is absent from src/
(only src/tests/test_submit_review.py imports it); given a sequence of
review comment inputs, or none, group them by path into an
ordered-by-insertion mapping after per-entry validation; empty or absent
input yields an empty mapping. -/
def build_review_comments : Option (List CommentInput) →
    Except GerritError (List (String × List BuiltComment))
  | none => Except.ok []
  | some cs => buildCommentsLoop cs []

/-- Review payload posted by `submit_gerrit_review`. -/
structure ReviewPayload where
  message : Option String
  labels : Option (List (String × Int))
  comments : List (String × List BuiltComment)
  notify : Option String
deriving Repr, DecidableEq

/-- Review write endpoint for a resolved revision. -/
def reviewEndpoint (change_id target_revision : String) : String :=
  "a/changes/" ++ change_id ++ "/revisions/" ++ target_revision ++ "/review"

/-- Python truthiness of an optional list: `None` and the empty list are
falsy. -/
def pyTruthyListOpt {α : Type} : Option (List α) → Bool
  | none => false
  | some l => !l.isEmpty

/-- Modelled from the spec: `submit_gerrit_review` is absent from src/
(only src/tests/test_submit_review.py imports it); fail with a
validation error when message, labels and comments are all absent,
otherwise resolve the revision (defaulting to current, with the
resolution algorithm of `fetch_gerrit_change`), build the payload and
issue exactly one write call, returning the resolved revision identifier
with the response body. The second component is the list of write calls
issued, as endpoint and payload pairs. -/
def submit_gerrit_review {ρ : Type}
    (changeResp : Except GerritError (Option ChangeDetail))
    (postResp : String → ReviewPayload → Except GerritError ρ)
    (change_id : String) (patchset_number : Option String)
    (message : Option String) (labels : Option (List (String × Int)))
    (comments : Option (List CommentInput)) (notify : Option String) :
    Except GerritError (String × ρ) × List (String × ReviewPayload) :=
  if pyTruthyStrOpt message || pyTruthyListOpt labels || pyTruthyListOpt comments then
    match changeResp with
    | Except.error e => (Except.error e, [])
    | Except.ok none =>
      (Except.error (GerritError.notFound ("Change " ++ change_id ++ " not found")), [])
    | Except.ok (some ci) =>
      match resolveTargetRevision ci.current_revision ci.revisions patchset_number with
      | Except.error e => (Except.error e, [])
      | Except.ok (target, _) =>
        match build_review_comments comments with
        | Except.error e => (Except.error e, [])
        | Except.ok built =>
          let payload : ReviewPayload :=
            { message := message, labels := labels, comments := built, notify := notify }
          let ep := reviewEndpoint change_id target
          match postResp ep payload with
          | Except.error e => (Except.error e, [(ep, payload)])
          | Except.ok body => (Except.ok (target, body), [(ep, payload)])
  else
    (Except.error (GerritError.validation
      "Nothing to submit: provide a message, labels, or comments"), [])

/-- Path group key of a comment input, as used once validation passed. -/
def pathOf (c : CommentInput) : String := c.path.getD ""

/-- Span of a range input when well-formed. -/
def spanOfRange : Option RangeInput → Option Span
  | none => none
  | some (RangeInput.span s) => some s
  | some (RangeInput.malformed _) => none

/-- Stripped entry of a valid comment input: message plus line when
present, else span when present. -/
def stripEntry (c : CommentInput) : BuiltComment :=
  match c.line with
  | some n => { line := some n, range := none, message := c.message }
  | none => { line := none, range := spanOfRange c.range, message := c.message }

/-- Validity of one comment input: truthy path, a present line is
positive, a present range is a well-formed span. -/
def validInput (c : CommentInput) : Bool :=
  pyTruthyStrOpt c.path &&
    (match c.line with
     | some n => decide (0 < n)
     | none => true) &&
    (match c.range with
     | some (RangeInput.malformed _) => false
     | _ => true)

/-- First-occurrence deduplication of a list of strings, preserving
order. -/
def dedupFirst : List String → List String
  | [] => []
  | x :: xs => x :: (dedupFirst xs).filter (fun y => y != x)

/-- Group of a path inside the built mapping, empty when the path is not
a key. -/
def lookupGroup (m : List (String × List BuiltComment)) (p : String) : List BuiltComment :=
  ((m.find? (fun q => q.1 == p)).map Prod.snd).getD []


/-- File metadata with every optional key absent, for concrete
evaluations. -/
def demoFileInfo : FileInfo :=
  { status := none, lines_inserted := none, lines_deleted := none, size_delta := none }

/-- Concrete change detail with one revision and one file, for concrete
evaluations. -/
def demoDetailOneFile : ChangeDetail :=
  { project := some "p"
    current_revision := some "r1"
    revisions := [("r1", { number := some 1, files := [("test.cpp", demoFileInfo)] })] }

/-- Expected result of fetching `demoDetailOneFile` with a constant diff
oracle and no exclusion patterns. -/
def demoFetchResultOneFile : FetchChangeResult Nat Nat :=
  { change_info := demoDetailOneFile
    project := "p"
    revision := "r1"
    patchset := { number := some 1, files := [("test.cpp", demoFileInfo)] }
    files := [mkProcessedFile "test.cpp" demoFileInfo 0]
    inline_comments := []
    excluded_large_files := none
    note := none }

/-- A nonempty string is truthy. -/
lemma pyTruthyStrOpt_some_of_ne {c : String} (h : c ≠ "") :
    pyTruthyStrOpt (some c) = true := by
  have he : c.isEmpty = false := by
    by_contra hc
    rw [Bool.not_eq_false] at hc
    exact h ((String.isEmpty_iff c).mp hc)
  simp [pyTruthyStrOpt, he]

/-- The Python `sorted` model returns a list sorted ascending in the
lexicographic string order. -/
lemma pySortedStr_sorted (l : List String) : List.Sorted (· ≤ ·) (pySortedStr l) := by
  have h := @List.sorted_mergeSort String strLeB
    (fun a b c hab hbc => by
      simp only [strLeB, decide_eq_true_eq] at *
      exact le_trans hab hbc)
    (fun a b => by
      simp only [strLeB, Bool.or_eq_true, decide_eq_true_eq]
      exact le_total a b) l
  exact List.Pairwise.imp (fun hab => by
    simpa only [strLeB, decide_eq_true_eq] using hab) h

/-- The Python `sorted` model returns a permutation of its input. -/
lemma pySortedStr_perm (l : List String) : List.Perm (pySortedStr l) l :=
  List.mergeSort_perm l strLeB

/-- C1 (amended): revision resolution in `fetch_gerrit_change`. For
every change metadata with a revisions mapping of nonempty revision
identifiers: a falsy patchset number (absent or empty string) resolves
to the distinguished current revision; a non-empty patchset number
resolves to the first revision whose patchset number equals the request
after independent string-conversion of both sides; and when no revision
matches, the resolution fails with the not-found error whose message
enumerates every available patchset number, sorted ascending as
strings. -/
theorem C1_revision_resolution (cur : Option String)
    (revs : List (String × RevInfo)) (ps : Option String) :
    (pyTruthyStrOpt ps = false →
      ∀ c e, cur = some c → c ≠ "" →
        revs.find? (fun p => p.1 == c) = some e →
        resolveTargetRevision cur revs ps = Except.ok (c, e.2))
    ∧ (∀ s e e2, ps = some s → s ≠ "" →
        revs.find? (fun p => pyStrOptInt p.2.number == s) = some e → e.1 ≠ "" →
        revs.find? (fun p => p.1 == e.1) = some e2 →
        resolveTargetRevision cur revs ps = Except.ok (e.1, e2.2))
    ∧ (∀ s, ps = some s → s ≠ "" →
        revs.find? (fun p => pyStrOptInt p.2.number == s) = none →
        resolveTargetRevision cur revs ps =
          Except.error (GerritError.notFound (patchsetNotFoundMsg s revs))
        ∧ List.Sorted (· ≤ ·) (availablePatchsets revs)
        ∧ List.Perm (availablePatchsets revs) (revs.map (fun p => pyStrOptInt p.2.number))) := by
  refine ⟨?_, ?_, ?_⟩
  · intro hps c e hcur hc hfind
    subst hcur
    simp [resolveTargetRevision, hps, pyTruthyStrOpt_some_of_ne hc, hfind]
  · intro s e e2 hps hs hfind he1 hfind2
    subst hps
    simp [resolveTargetRevision, pyTruthyStrOpt_some_of_ne hs, pyStrOptStr, hfind,
      pyTruthyStrOpt_some_of_ne he1, hfind2]
  · intro s hps hs hfind
    subst hps
    refine ⟨?_, pySortedStr_sorted _, pySortedStr_perm _⟩
    simp [resolveTargetRevision, pyTruthyStrOpt_some_of_ne hs, pyStrOptStr, hfind,
      patchsetNotFoundMsg]

/-- C1 counterexample to the claim as stated: with a single revision of
patchset number 1 and a supplied empty-string patchset number, no
revision matches the request (both sides compared after
string-conversion), so the claim requires a not-found failure; the code
instead falls into the falsy branch and returns the current revision. -/
theorem C1_counterexample :
    resolveTargetRevision (some "rev1")
      [("rev1", { number := some 1, files := [] })] (some "") =
      Except.ok ("rev1", ({ number := some 1, files := [] } : RevInfo))
    ∧ [("rev1", ({ number := some 1, files := [] } : RevInfo))].find?
        (fun p => pyStrOptInt p.2.number == pyStrOptStr (some "")) = none := by
  exact ⟨rfl, rfl⟩

/-- C1 witness: the amended theorem applied at concrete metadata with
two patchsets, resolving the supplied number 2 to its revision. -/
theorem C1_witness :
    resolveTargetRevision (some "r1")
      [("r1", { number := some 1, files := [] }), ("r2", { number := some 2, files := [] })]
      (some "2") =
      Except.ok ("r2", ({ number := some 2, files := [] } : RevInfo)) :=
  (C1_revision_resolution (some "r1")
      [("r1", { number := some 1, files := [] }), ("r2", { number := some 2, files := [] })]
      (some "2")).2.1 "2"
    ("r2", { number := some 2, files := [] }) ("r2", { number := some 2, files := [] })
    rfl (by decide) (by decide) (by decide) (by decide)

/-- C2: file diff aggregation exclusion. For every pattern engine, every
total diff fetch, every ordered pattern list and every file mapping, the
aggregation loop splits the files other than the synthetic commit
message entry into the processed sequence (no pattern matches, entry
augmented with the fetched diff) and the excluded sequence (first
matching pattern recorded as the reason), both preserving the iteration
order of the mapping; with no patterns configured nothing is
excluded. -/
theorem C2_file_aggregation_exclusion {δ : Type} (search : String → String → Bool)
    (f : String → δ) (patterns : List String) (files : List (String × FileInfo)) :
    (processFiles search (fun path => Except.ok (f path)) patterns files =
      Except.ok
        ((files.filter (fun p => p.1 != "/COMMIT_MSG" &&
            (findExcludePattern search patterns p.1).isNone)).map
          (fun p => mkProcessedFile p.1 p.2 (f p.1)),
         (files.filter (fun p => p.1 != "/COMMIT_MSG" &&
            (findExcludePattern search patterns p.1).isSome)).map
          (fun p => mkExcludedFile p.1 p.2 ((findExcludePattern search patterns p.1).getD ""))))
    ∧ processFiles search (fun path => Except.ok (f path)) [] files =
        Except.ok
          ((files.filter (fun p => p.1 != "/COMMIT_MSG")).map
            (fun p => mkProcessedFile p.1 p.2 (f p.1)), []) := by
  constructor
  · induction files with
    | nil => rfl
    | cons hd tl ih =>
      obtain ⟨path, info⟩ := hd
      by_cases hc : path = "/COMMIT_MSG"
      · subst hc
        simp [processFiles, ih]
      · cases hfe : findExcludePattern search patterns path with
        | some pat => simp [processFiles, hc, hfe, ih]
        | none => simp [processFiles, hc, hfe, ih]
  · induction files with
    | nil => rfl
    | cons hd tl ih =>
      obtain ⟨path, info⟩ := hd
      by_cases hc : path = "/COMMIT_MSG"
      · subst hc
        simp [processFiles, ih]
      · simp [processFiles, hc, findExcludePattern, ih]

/-- C8: aggregation atomicity on fetch failure. For every file mapping
split as a prefix of files whose diff fetches succeed, followed by a
file that is neither the synthetic commit message entry nor excluded and
whose diff fetch fails, the whole aggregation returns exactly that
single propagated error and no partial per-file results. -/
theorem C8_aggregation_atomicity {δ : Type} (search : String → String → Bool)
    (fetchDiff : String → Except GerritError δ) (patterns : List String)
    (pre : List (String × FileInfo)) (path : String) (info : FileInfo)
    (rest : List (String × FileInfo)) (e : GerritError)
    (hpre : ∀ p ∈ pre, p.1 ≠ "/COMMIT_MSG" →
      findExcludePattern search patterns p.1 = none → (fetchDiff p.1).isOk = true)
    (hpath : path ≠ "/COMMIT_MSG")
    (hnoexcl : findExcludePattern search patterns path = none)
    (herr : fetchDiff path = Except.error e) :
    processFiles search fetchDiff patterns (pre ++ (path, info) :: rest) =
      Except.error e := by
  induction pre with
  | nil => simp [processFiles, hpath, hnoexcl, herr]
  | cons hd tl ih =>
    obtain ⟨q, qinfo⟩ := hd
    have ihtl := ih (fun p hp => hpre p (List.mem_cons_of_mem _ hp))
    by_cases hq : q = "/COMMIT_MSG"
    · subst hq
      simpa [processFiles] using ihtl
    · cases hfe : findExcludePattern search patterns q with
      | some pat => simp [processFiles, hq, hfe, ihtl]
      | none =>
        have hok := hpre (q, qinfo) (List.mem_cons_self _ _) hq hfe
        cases hfq : fetchDiff q with
        | error e2 => rw [hfq] at hok; simp [Except.isOk, Except.toBool] at hok
        | ok d => simp [processFiles, hq, hfe, hfq, ihtl]

/-- C8 witness: the atomicity theorem applied at a concrete mapping
where the second file fails to fetch, aborting the aggregation with the
single transport error. -/
theorem C8_witness :
    processFiles containsSub
      (fun path => if path == "b.py" then Except.error (GerritError.transport "boom")
        else Except.ok (0 : Nat))
      ["lock"]
      [("a.go", { status := none, lines_inserted := none, lines_deleted := none, size_delta := none }),
       ("b.py", { status := none, lines_inserted := none, lines_deleted := none, size_delta := none })] =
      Except.error (GerritError.transport "boom") :=
  C8_aggregation_atomicity containsSub
    (fun path => if path == "b.py" then Except.error (GerritError.transport "boom")
      else Except.ok (0 : Nat))
    ["lock"]
    [("a.go", { status := none, lines_inserted := none, lines_deleted := none, size_delta := none })]
    "b.py" { status := none, lines_inserted := none, lines_deleted := none, size_delta := none }
    [] (GerritError.transport "boom")
    (by
      intro p hp hq hfe
      simp only [List.mem_singleton] at hp
      subst hp
      rfl)
    (by decide) rfl rfl

/-- Helper: with a total diff oracle the comparison loop keeps exactly
the files that are neither the commit message entry nor of status SAME,
in order, pairing each with the diff fetched from its base-scoped
endpoint, and its trace is the corresponding endpoint list. -/
lemma collectChangedFiles_total {δ : Type} (g : String → δ)
    (cid tgt base : String) (fs : List (String × FileInfo)) :
    collectChangedFiles (fun ep => Except.ok (g ep)) cid tgt base fs =
      (Except.ok ((fs.filter (fun p => p.1 != "/COMMIT_MSG" && p.2.status != some "SAME")).map
          (fun p => (p.1, mkChangedFile p.2 (g (fileDiffEndpointBase cid tgt p.1 base))))),
       (fs.filter (fun p => p.1 != "/COMMIT_MSG" && p.2.status != some "SAME")).map
          (fun p => fileDiffEndpointBase cid tgt p.1 base)) := by
  induction fs with
  | nil => rfl
  | cons hd tl ih =>
    obtain ⟨path, info⟩ := hd
    by_cases hc : path = "/COMMIT_MSG"
    · subst hc
      simp [collectChangedFiles, ih]
    · by_cases hs : info.status = some "SAME"
      · simp [collectChangedFiles, hc, hs, ih, Except.map]
      · simp [collectChangedFiles, hc, hs, ih, Except.map]

/-- C3: patchset comparison. For every change detail: when either
patchset number fails to resolve (to a truthy revision), the operation
fails with the not-found error listing all available patchset numbers,
sorted ascending as strings; when both resolve and the comparison
endpoint returns a file mapping, the result holds exactly the files of
that mapping whose status is not SAME, excluding the synthetic commit
message entry, each with the diff fetched from its base-scoped
endpoint. -/
theorem C3_patchset_comparison {δ : Type}
    (filesResp : String → Except GerritError (List (String × FileInfo)))
    (diffResp : String → Except GerritError δ) (g : String → δ)
    (change_id base_patchset target_patchset : String) (fp : Option String)
    (ci : ChangeDetail) :
    ((pyTruthyStrOpt (scanRevisions ci.revisions base_patchset) = false ∨
      pyTruthyStrOpt (scanRevisions ci.revisions target_patchset) = false) →
      (fetch_patchset_diff (Except.ok (some ci)) filesResp diffResp
          change_id base_patchset target_patchset fp).1 =
        Except.error (GerritError.notFound (patchsetsNotFoundMsg ci.revisions))
      ∧ List.Sorted (· ≤ ·) (availablePatchsets ci.revisions)
      ∧ List.Perm (availablePatchsets ci.revisions)
          (ci.revisions.map (fun p => pyStrOptInt p.2.number)))
    ∧ (∀ b t fs,
        scanRevisions ci.revisions base_patchset = some b → b ≠ "" →
        scanRevisions ci.revisions target_patchset = some t → t ≠ "" →
        filesResp (filesCompareEndpoint change_id t b) = Except.ok fs →
        (fetch_patchset_diff (Except.ok (some ci)) filesResp (fun ep => Except.ok (g ep))
            change_id base_patchset target_patchset fp).1 =
          Except.ok
            { base_revision := b
              target_revision := t
              base_patchset := base_patchset
              target_patchset := target_patchset
              files := (fs.filter (fun p => p.1 != "/COMMIT_MSG" && p.2.status != some "SAME")).map
                (fun p => (p.1, mkChangedFile p.2 (g (fileDiffEndpointBase change_id t p.1 b)))) }) := by
  constructor
  · intro h
    refine ⟨?_, pySortedStr_sorted _, pySortedStr_perm _⟩
    rcases h with h | h <;> simp [fetch_patchset_diff, h]
  · intro b t fs hb hbne ht htne hfiles
    simp [fetch_patchset_diff, hb, ht, pyTruthyStrOpt_some_of_ne hbne,
      pyTruthyStrOpt_some_of_ne htne, hfiles, collectChangedFiles_total, Except.map]

/-- C3 witness: the comparison theorem applied at the example of the
specification, base patchset 1 against target patchset 2 where only one
file differs; the SAME-status file and the commit message entry are
excluded. -/
theorem C3_witness :
    (fetch_patchset_diff
      (Except.ok (some
        { project := some "p"
          current_revision := some "r2"
          revisions := [("r1", { number := some 1, files := [] }),
            ("r2", { number := some 2, files := [] })] }))
      (fun _ => Except.ok
        [("/COMMIT_MSG", { status := none, lines_inserted := none, lines_deleted := none, size_delta := none }),
         ("x.py", { status := some "MODIFIED", lines_inserted := some 3, lines_deleted := some 1, size_delta := some 7 }),
         ("same.py", { status := some "SAME", lines_inserted := none, lines_deleted := none, size_delta := none })])
      (fun _ => Except.ok (0 : Nat))
      "12345" "1" "2" none).1 =
      Except.ok
        { base_revision := "r1"
          target_revision := "r2"
          base_patchset := "1"
          target_patchset := "2"
          files := [("x.py",
            { status := "MODIFIED", lines_inserted := 3, lines_deleted := 1,
              size_delta := 7, diff := (0 : Nat) })] } :=
  (C3_patchset_comparison
      (fun _ => Except.ok
        [("/COMMIT_MSG", { status := none, lines_inserted := none, lines_deleted := none, size_delta := none }),
         ("x.py", { status := some "MODIFIED", lines_inserted := some 3, lines_deleted := some 1, size_delta := some 7 }),
         ("same.py", { status := some "SAME", lines_inserted := none, lines_deleted := none, size_delta := none })])
      (fun _ => Except.ok (0 : Nat)) (fun _ => (0 : Nat))
      "12345" "1" "2" none
      { project := some "p"
        current_revision := some "r2"
        revisions := [("r1", { number := some 1, files := [] }),
          ("r2", { number := some 2, files := [] })] }).2
    "r1" "r2"
    [("/COMMIT_MSG", { status := none, lines_inserted := none, lines_deleted := none, size_delta := none }),
     ("x.py", { status := some "MODIFIED", lines_inserted := some 3, lines_deleted := some 1, size_delta := some 7 }),
     ("same.py", { status := some "SAME", lines_inserted := none, lines_deleted := none, size_delta := none })]
    rfl (by decide) rfl (by decide) rfl

/-- C10: the optional `file_path` argument of `fetch_patchset_diff` is
dead — it is shadowed by the loop variable of the comparison loop before
any read — so two calls that differ only in that argument (including
supplying it versus omitting it) issue the same transport request trace
and return identical results. -/
theorem C10_file_path_unused {δ : Type}
    (changeResp : Except GerritError (Option ChangeDetail))
    (filesResp : String → Except GerritError (List (String × FileInfo)))
    (diffResp : String → Except GerritError δ)
    (change_id base_patchset target_patchset : String) (fp1 fp2 : Option String) :
    fetch_patchset_diff changeResp filesResp diffResp
        change_id base_patchset target_patchset fp1 =
      fetch_patchset_diff changeResp filesResp diffResp
        change_id base_patchset target_patchset fp2 := rfl

/-- C7: inline comment degradation. When comments are not requested
(the source default is `include_comments=False`) the comment oracle is
never consulted — the run is identical for any two oracles — and a
successful result carries an empty inline comment mapping with nothing
logged. When comments are requested and the comment fetch fails, the
primary request still returns the complete diff result it would have
returned without comments, with an empty inline comment mapping, and the
only effect is one logged warning containing the change identifier and
the underlying error text; no exception escapes the comment fetch. -/
theorem C7_inline_comment_degradation {δ γ : Type}
    (changeResp : Except GerritError (Option ChangeDetail))
    (search : String → String → Bool)
    (diffResp : String → Except GerritError δ)
    (c1 c2 : String → Except GerritError (List (String × γ)))
    (patterns : List String) (change_id : String) (ps : Option String) :
    (fetch_gerrit_change changeResp search diffResp c1 patterns change_id ps false =
      fetch_gerrit_change changeResp search diffResp c2 patterns change_id ps false)
    ∧ (∀ r w, fetch_gerrit_change changeResp search diffResp c1 patterns change_id ps false =
        (Except.ok r, w) → r.inline_comments = [] ∧ w = [])
    ∧ (∀ r e, fetch_gerrit_change changeResp search diffResp c1 patterns change_id ps false =
        (Except.ok r, []) →
        c1 (commentsEndpoint change_id r.revision) = Except.error e →
        fetch_gerrit_change changeResp search diffResp c1 patterns change_id ps true =
          (Except.ok r,
            ["Failed to fetch inline comments for change " ++ change_id ++ ": " ++ e.text])
        ∧ r.inline_comments = []) := by
  refine ⟨?_, ?_, ?_⟩
  · cases hcore : fetch_gerrit_change_core changeResp search diffResp patterns change_id ps with
    | error e => simp [fetch_gerrit_change, hcore]
    | ok t => simp [fetch_gerrit_change, hcore]
  · intro r w h
    cases hcore : fetch_gerrit_change_core changeResp search diffResp patterns change_id ps with
    | error e => simp [fetch_gerrit_change, hcore] at h
    | ok t =>
      obtain ⟨ci, target, revInfo, proc, excl⟩ := t
      simp [fetch_gerrit_change, hcore] at h
      obtain ⟨h1, h2⟩ := h
      constructor
      · rw [← h1]
      · exact h2
  · intro r e h hc
    cases hcore : fetch_gerrit_change_core changeResp search diffResp patterns change_id ps with
    | error e2 => simp [fetch_gerrit_change, hcore] at h
    | ok t =>
      obtain ⟨ci, target, revInfo, proc, excl⟩ := t
      simp [fetch_gerrit_change, hcore] at h
      subst h
      have hc2 : c1 (commentsEndpoint change_id target) = Except.error e := hc
      refine ⟨?_, rfl⟩
      simp [fetch_gerrit_change, hcore, hc2]

/-- C7 witness: the degradation theorem applied at a concrete change
with one file, a comment oracle that always fails, and comments
requested; the run succeeds with an empty inline comment mapping and one
logged warning naming the change and the failure. -/
theorem C7_witness :
    fetch_gerrit_change
      (Except.ok (some demoDetailOneFile))
      containsSub (fun _ => Except.ok (0 : Nat))
      ((fun _ => Except.error (GerritError.transport "comment boom")) :
        String → Except GerritError (List (String × Nat)))
      [] "12345" none true =
      (Except.ok demoFetchResultOneFile,
        ["Failed to fetch inline comments for change 12345: comment boom"])
    ∧ demoFetchResultOneFile.inline_comments = [] :=
  (C7_inline_comment_degradation
      (Except.ok (some demoDetailOneFile))
      containsSub (fun _ => Except.ok 0)
      (fun _ => Except.error (GerritError.transport "comment boom"))
      (fun _ => Except.error (GerritError.transport "comment boom"))
      [] "12345" none).2.2
    demoFetchResultOneFile (GerritError.transport "comment boom") rfl rfl

/-- Helper: a character list starts any extension of itself. -/
lemma charsStart_append (p l : List Char) : charsStart p (p ++ l) = true := by
  induction p with
  | nil => rfl
  | cons a as ih => simp [charsStart, ih]

/-- Helper: string append concatenates the character data. -/
lemma toList_append (a b : String) : (a ++ b).toList = a.toList ++ b.toList := by
  cases a with
  | mk da =>
    cases b with
    | mk db => rfl

/-- C9: transport adapter response handling. Stripping: a body starting
with the fixed 4-character XSSI guard loses exactly that guard before
parsing, and a body not starting with it is parsed unchanged; a
non-error status is parsed after stripping, a parse failure becoming the
transport error wrapping the parser message; a 401 status fails with the
authentication error; a request failure, and any other 4xx or 5xx
status, fails with the transport error wrapping the underlying cause
text. -/
theorem C9_transport_response_handling {α : Type}
    (parseJson : String → Except String α) (httpErrText : HttpResponse → String) :
    (∀ rest, stripXssi (xssiMagic ++ rest) = rest)
    ∧ (∀ body, charsStart xssiMagic.toList body.toList = false → stripXssi body = body)
    ∧ (∀ status body, status ≠ 401 → ¬(400 ≤ status ∧ status < 600) →
        make_gerrit_rest_request parseJson httpErrText
            (HttpOutcome.response { status := status, text := body }) =
          match parseJson (stripXssi body) with
          | Except.ok v => Except.ok v
          | Except.error e =>
            Except.error (GerritError.transport ("Failed to parse Gerrit response as JSON: " ++ e)))
    ∧ (∀ body, make_gerrit_rest_request parseJson httpErrText
        (HttpOutcome.response { status := 401, text := body }) =
        Except.error (GerritError.auth
          "Authentication failed. Please check your Gerrit HTTP password in your account settings."))
    ∧ (∀ cause, make_gerrit_rest_request parseJson httpErrText (HttpOutcome.failure cause) =
        Except.error (GerritError.transport ("Failed to make Gerrit REST API request: " ++ cause)))
    ∧ (∀ status body, status ≠ 401 → 400 ≤ status → status < 600 →
        make_gerrit_rest_request parseJson httpErrText
            (HttpOutcome.response { status := status, text := body }) =
          Except.error (GerritError.transport
            ("Failed to make Gerrit REST API request: " ++
              httpErrText { status := status, text := body }))) := by
  refine ⟨?_, ?_, ?_, ?_, ?_, ?_⟩
  · intro rest
    have hstart : charsStart xssiMagic.toList (xssiMagic ++ rest).toList = true := by
      rw [toList_append]
      exact charsStart_append _ _
    have hlen : xssiMagic.toList.length = 4 := by decide
    simp only [stripXssi, hstart, if_true, toList_append]
    rw [show (4 : Nat) = xssiMagic.toList.length from hlen.symm, List.drop_left]
    cases rest with
    | mk d => rfl
  · intro body h
    have h2 : charsStart xssiMagic.data body.data = false := h
    simp [stripXssi, h2]
  · intro status body h401 hrange
    have hb : (status == 401) = false := by
      simp [h401]
    simp [make_gerrit_rest_request, hb, hrange]
  · intro body
    simp [make_gerrit_rest_request]
  · intro cause
    rfl
  · intro status body h401 h4 h6
    have hb : (status == 401) = false := by
      simp [h401]
    simp [make_gerrit_rest_request, hb, h4, h6]

/-- C9 witness: the handling theorem applied to a 200 response whose
body carries the XSSI guard before the payload; the guard is stripped
and the identity parser receives exactly the remainder. -/
theorem C9_witness :
    make_gerrit_rest_request (fun s => Except.ok s) (fun _ => "http failure")
        (HttpOutcome.response { status := 200, text := xssiMagic ++ "null" }) =
      Except.ok "null" :=
  (C9_transport_response_handling (fun s => Except.ok s) (fun _ => "http failure")).2.2.1
    200 (xssiMagic ++ "null") (by decide) (by decide)

/-- Helper: a valid comment input passes per-entry validation and is
stripped to its path key and retained entry. -/
lemma buildOneComment_valid (c : CommentInput) (h : validInput c = true) :
    buildOneComment c = Except.ok (pathOf c, stripEntry c) := by
  simp only [validInput, Bool.and_eq_true] at h
  obtain ⟨⟨hpath, hline⟩, hrange⟩ := h
  cases hl : c.line with
  | some n =>
    rw [hl] at hline
    have hn : 0 < n := by
      simpa using hline
    cases hr : c.range with
    | none => simp [buildOneComment, hpath, hl, hn, hr, checkRangeInput, pathOf, stripEntry]
    | some ri =>
      cases ri with
      | span s => simp [buildOneComment, hpath, hl, hn, hr, checkRangeInput, pathOf, stripEntry]
      | malformed r => rw [hr] at hrange; simp at hrange
  | none =>
    cases hr : c.range with
    | none =>
      simp [buildOneComment, hpath, hl, hr, checkRangeInput, pathOf, stripEntry, spanOfRange]
    | some ri =>
      cases ri with
      | span s =>
        simp [buildOneComment, hpath, hl, hr, checkRangeInput, pathOf, stripEntry, spanOfRange]
      | malformed r => rw [hr] at hrange; simp at hrange

/-- Helper: processing a prefix of valid entries leaves the loop running
on the remaining entries from some accumulated grouping. -/
lemma buildCommentsLoop_append (pre cs : List CommentInput)
    (acc : List (String × List BuiltComment))
    (h : ∀ c ∈ pre, validInput c = true) :
    ∃ acc2, buildCommentsLoop (pre ++ cs) acc = buildCommentsLoop cs acc2 := by
  induction pre generalizing acc with
  | nil => exact ⟨acc, rfl⟩
  | cons c rest ih =>
    have hc := buildOneComment_valid c (h c (List.mem_cons_self _ _))
    have step : buildCommentsLoop ((c :: rest) ++ cs) acc =
        buildCommentsLoop (rest ++ cs) (insertComment acc (pathOf c) (stripEntry c)) := by
      simp [buildCommentsLoop, hc]
    rw [step]
    exact ih _ (fun d hd => h d (List.mem_cons_of_mem _ hd))

/-- Helper: keys of the grouping after one insertion. -/
lemma insertComment_keys (m : List (String × List BuiltComment)) (p : String) (e : BuiltComment) :
    (insertComment m p e).map Prod.fst =
      if p ∈ m.map Prod.fst then m.map Prod.fst else m.map Prod.fst ++ [p] := by
  induction m with
  | nil => simp [insertComment]
  | cons hd tl ih =>
    obtain ⟨q, l⟩ := hd
    by_cases hq : q = p
    · subst hq
      simp [insertComment]
    · have hqb : (q == p) = false := by
        simp [hq]
      by_cases hp : p ∈ tl.map Prod.fst
      · simp [insertComment, hqb, ih, hp, Ne.symm hq]
      · simp [insertComment, hqb, ih, hp, Ne.symm hq]

/-- Helper: group contents after one insertion. -/
lemma lookupGroup_insertComment (m : List (String × List BuiltComment))
    (p : String) (e : BuiltComment) (q : String) :
    lookupGroup (insertComment m p e) q =
      if q = p then lookupGroup m p ++ [e] else lookupGroup m q := by
  induction m with
  | nil =>
    by_cases hq : q = p
    · subst hq
      simp [insertComment, lookupGroup]
    · simp [insertComment, lookupGroup, hq, Ne.symm hq]
  | cons hd tl ih =>
    obtain ⟨k, l⟩ := hd
    by_cases hk : k = p
    · subst hk
      by_cases hq : q = k
      · subst hq
        simp [insertComment, lookupGroup]
      · simp [insertComment, lookupGroup, hq, Ne.symm hq]
    · have hkb : (k == p) = false := by
        simp [hk]
      by_cases hq : q = k
      · subst hq
        have hqp : q ≠ p := hk
        simp [insertComment, lookupGroup, hkb, hqp]
      · have hkq : (k == q) = false := by
          simp [Ne.symm hq]
        simpa [insertComment, lookupGroup, hkb, hkq] using ih

/-- Helper: full characterization of the grouping loop on valid inputs,
generalized over the accumulated grouping. -/
lemma buildCommentsLoop_spec (cs : List CommentInput) (acc : List (String × List BuiltComment))
    (h : ∀ c ∈ cs, validInput c = true) :
    ∃ m, buildCommentsLoop cs acc = Except.ok m
      ∧ m.map Prod.fst = acc.map Prod.fst ++
          (dedupFirst (cs.map pathOf)).filter (fun p => decide (p ∉ acc.map Prod.fst))
      ∧ ∀ q, lookupGroup m q =
          lookupGroup acc q ++ (cs.filter (fun c => pathOf c == q)).map stripEntry := by
  induction cs generalizing acc with
  | nil =>
    refine ⟨acc, rfl, by simp [dedupFirst], by simp⟩
  | cons c cs ih =>
    have hc := buildOneComment_valid c (h c (List.mem_cons_self _ _))
    have step : buildCommentsLoop (c :: cs) acc =
        buildCommentsLoop cs (insertComment acc (pathOf c) (stripEntry c)) := by
      simp [buildCommentsLoop, hc]
    obtain ⟨m, hm, hkeys, hlook⟩ :=
      ih (insertComment acc (pathOf c) (stripEntry c))
        (fun d hd => h d (List.mem_cons_of_mem _ hd))
    refine ⟨m, by rw [step]; exact hm, ?_, ?_⟩
    · rw [hkeys, insertComment_keys]
      by_cases hp : pathOf c ∈ acc.map Prod.fst
      · rw [if_pos hp]
        simp only [List.map_cons, dedupFirst, List.filter_cons]
        have hp0 : (decide (pathOf c ∉ acc.map Prod.fst)) = false := by
          simp [hp]
        rw [hp0]
        simp only [Bool.false_eq_true, if_false, List.filter_filter]
        congr 1
        apply List.filter_congr
        intro a _
        by_cases ha : a ∈ acc.map Prod.fst
        · simp [ha]
        · have hne : a ≠ pathOf c := fun hEq => ha (hEq ▸ hp)
          simp [ha, hne]
      · rw [if_neg hp]
        simp only [List.map_cons, dedupFirst, List.filter_cons]
        have hp0 : (decide (pathOf c ∉ acc.map Prod.fst)) = true := by
          simp [hp]
        rw [hp0]
        simp only [if_true, List.append_assoc, List.singleton_append, List.filter_filter]
        congr 2
        apply List.filter_congr
        intro a _
        by_cases ha : a ∈ acc.map Prod.fst
        · simp [ha]
        · by_cases hap : a = pathOf c
          · subst hap
            simp [ha]
          · simp [ha, hap]
    · intro q
      rw [hlook q, lookupGroup_insertComment]
      by_cases hq : q = pathOf c
      · subst hq
        simp [List.filter_cons, List.append_assoc]
      · have hqb : (pathOf c == q) = false := by
          simp [Ne.symm hq]
        simp [List.filter_cons, hq, hqb]

/-- C4: comment normalization. The modelled `build_review_comments` maps
an absent and an empty input sequence to the empty mapping; and for
every sequence of valid comment inputs it succeeds with a grouping whose
keys are the input paths in first-occurrence order and whose group of
every path lists, in input order, exactly the stripped entries (message
plus line or span when present, the path living only in the group key)
of the inputs with that path. -/
theorem C4_comment_normalization :
    build_review_comments none = Except.ok []
    ∧ build_review_comments (some []) = Except.ok []
    ∧ ∀ cs, (∀ c ∈ cs, validInput c = true) →
        ∃ m, build_review_comments (some cs) = Except.ok m
          ∧ m.map Prod.fst = dedupFirst (cs.map pathOf)
          ∧ ∀ q, lookupGroup m q = (cs.filter (fun c => pathOf c == q)).map stripEntry := by
  refine ⟨rfl, rfl, ?_⟩
  intro cs hvalid
  obtain ⟨m, hm, hkeys, hlook⟩ := buildCommentsLoop_spec cs [] hvalid
  refine ⟨m, hm, ?_, ?_⟩
  · simpa using hkeys
  · intro q
    simpa [lookupGroup] using hlook q

/-- C4 witness: the normalization theorem applied to the two-comment
example of the specification, both on one path, yielding the single
ordered group. -/
theorem C4_witness :
    ∃ m, build_review_comments (some
        [{ path := some "f", line := some 5, range := none, message := "m1" },
         { path := some "f", line := some 9, range := none, message := "m2" }]) = Except.ok m
      ∧ m.map Prod.fst = dedupFirst
          ([{ path := some "f", line := some 5, range := none, message := "m1" },
            { path := some "f", line := some 9, range := none, message := "m2" }].map pathOf)
      ∧ ∀ q, lookupGroup m q =
          ([{ path := some "f", line := some 5, range := none, message := "m1" },
            { path := some "f", line := some 9, range := none, message := "m2" }].filter
            (fun c => pathOf c == q)).map stripEntry :=
  C4_comment_normalization.2.2
    [{ path := some "f", line := some 5, range := none, message := "m1" },
     { path := some "f", line := some 9, range := none, message := "m2" }]
    (by decide)

/-- C5: comment validation. For every input sequence consisting of a
valid prefix followed by an offending entry: a falsy (absent or empty)
path fails with the validation error naming the path field; with the
path check passed, a present non-positive line fails with the validation
error naming the line field; and with the path and line checks passed, a
present malformed range fails with the validation error naming the range
field — the checks running in that order per entry. -/
theorem C5_comment_validation (pre : List CommentInput) (c : CommentInput)
    (rest : List CommentInput) (hpre : ∀ d ∈ pre, validInput d = true) :
    (pyTruthyStrOpt c.path = false →
      build_review_comments (some (pre ++ c :: rest)) =
        Except.error (GerritError.validation pathValidationMsg)
      ∧ ∃ a b, pathValidationMsg = a ++ "path" ++ b)
    ∧ (∀ n, pyTruthyStrOpt c.path = true → c.line = some n → n ≤ 0 →
      build_review_comments (some (pre ++ c :: rest)) =
        Except.error (GerritError.validation lineValidationMsg)
      ∧ ∃ a b, lineValidationMsg = a ++ "line" ++ b)
    ∧ (∀ r, pyTruthyStrOpt c.path = true →
      (c.line = none ∨ ∃ n, c.line = some n ∧ 0 < n) →
      c.range = some (RangeInput.malformed r) →
      build_review_comments (some (pre ++ c :: rest)) =
        Except.error (GerritError.validation rangeValidationMsg)
      ∧ ∃ a b, rangeValidationMsg = a ++ "range" ++ b) := by
  obtain ⟨acc2, hstep⟩ := buildCommentsLoop_append pre (c :: rest) [] hpre
  have hbuild : build_review_comments (some (pre ++ c :: rest)) =
      buildCommentsLoop (c :: rest) acc2 := by
    rw [build_review_comments, hstep]
  refine ⟨?_, ?_, ?_⟩
  · intro hfalse
    have hone : buildOneComment c = Except.error (GerritError.validation pathValidationMsg) := by
      simp [buildOneComment, hfalse]
    refine ⟨?_, "Each review comment requires a non-empty ", "", by decide⟩
    rw [hbuild]
    simp [buildCommentsLoop, hone]
  · intro n htrue hl hn
    have hn0 : ¬(0 < n) := by omega
    have hone : buildOneComment c = Except.error (GerritError.validation lineValidationMsg) := by
      simp [buildOneComment, htrue, hl, hn0]
    refine ⟨?_, "Review comment ", " must be a positive integer", by decide⟩
    rw [hbuild]
    simp [buildCommentsLoop, hone]
  · intro r htrue hldisj hr
    have hone : buildOneComment c = Except.error (GerritError.validation rangeValidationMsg) := by
      rcases hldisj with hl | ⟨n, hl, hn⟩
      · simp [buildOneComment, htrue, hl, hr, checkRangeInput]
      · simp [buildOneComment, htrue, hl, hn, hr, checkRangeInput]
    refine ⟨?_, "Review comment ", " must be a well-formed span object", by decide⟩
    rw [hbuild]
    simp [buildCommentsLoop, hone]

/-- C5 witness: the validation theorem applied to the single comment
with line zero of the specification example, failing with the validation
error naming the line field. -/
theorem C5_witness :
    build_review_comments (some
        [{ path := some "file.py", line := some 0, range := none, message := "Nope" }]) =
      Except.error (GerritError.validation lineValidationMsg)
    ∧ ∃ a b, lineValidationMsg = a ++ "line" ++ b :=
  (C5_comment_validation []
      { path := some "file.py", line := some 0, range := none, message := "Nope" }
      [] (by decide)).2.1 0 rfl rfl (by decide)

/-- C6: review submission orchestration. With message, labels and
comments all absent (falsy), the modelled `submit_gerrit_review` fails
with the validation error and issues no write call; otherwise, when the
revision resolves, the comments build and the write succeeds, it issues
exactly one write call whose payload carries the supplied notify policy
string verbatim, and returns the resolved revision identifier together
with the response body of the server. -/
theorem C6_review_submission {ρ : Type}
    (changeResp : Except GerritError (Option ChangeDetail))
    (postResp : String → ReviewPayload → Except GerritError ρ)
    (change_id : String) (patchset_number : Option String)
    (message : Option String) (labels : Option (List (String × Int)))
    (comments : Option (List CommentInput)) (notify : Option String) :
    (pyTruthyStrOpt message = false → pyTruthyListOpt labels = false →
      pyTruthyListOpt comments = false →
      submit_gerrit_review changeResp postResp change_id patchset_number
          message labels comments notify =
        (Except.error (GerritError.validation
          "Nothing to submit: provide a message, labels, or comments"), []))
    ∧ (∀ ci t ri built body,
        (pyTruthyStrOpt message || pyTruthyListOpt labels || pyTruthyListOpt comments) = true →
        changeResp = Except.ok (some ci) →
        resolveTargetRevision ci.current_revision ci.revisions patchset_number =
          Except.ok (t, ri) →
        build_review_comments comments = Except.ok built →
        postResp (reviewEndpoint change_id t)
          { message := message, labels := labels, comments := built, notify := notify } =
          Except.ok body →
        submit_gerrit_review changeResp postResp change_id patchset_number
            message labels comments notify =
          (Except.ok (t, body),
           [(reviewEndpoint change_id t,
             { message := message, labels := labels, comments := built, notify := notify })])
        ∧ (ReviewPayload.notify
            { message := message, labels := labels, comments := built, notify := notify }) =
              notify) := by
  constructor
  · intro h1 h2 h3
    simp [submit_gerrit_review, h1, h2, h3]
  · intro ci t ri built body hor hchange hresolve hbuilt hpost
    subst hchange
    refine ⟨?_, rfl⟩
    simp [submit_gerrit_review, hor, hresolve, hbuilt, hpost]

/-- C6 witness: the orchestration theorem applied at the concrete
submission of the tests — current revision, one comment, labels and the
notify policy OWNER_REVIEWERS — posting exactly one payload that carries
the policy verbatim. -/
theorem C6_witness :
    submit_gerrit_review
      (Except.ok (some
        { project := some "p"
          current_revision := some "rev123"
          revisions := [("rev123", { number := some 1, files := [] })] }))
      (fun _ _ => Except.ok (42 : Nat))
      "12345" none (some "Looks good") (some [("Code-Review", 1)])
      (some [{ path := some "a/file.py", line := none, range := none, message := "Nice" }])
      (some "OWNER_REVIEWERS") =
      (Except.ok ("rev123", 42),
       [(reviewEndpoint "12345" "rev123",
         { message := some "Looks good"
           labels := some [("Code-Review", 1)]
           comments := [("a/file.py", [{ line := none, range := none, message := "Nice" }])]
           notify := some "OWNER_REVIEWERS" })])
    ∧ (ReviewPayload.notify
        { message := some "Looks good"
          labels := some [("Code-Review", 1)]
          comments := [("a/file.py", [{ line := none, range := none, message := "Nice" }])]
          notify := some "OWNER_REVIEWERS" }) = some "OWNER_REVIEWERS" :=
  (C6_review_submission
      (Except.ok (some
        { project := some "p"
          current_revision := some "rev123"
          revisions := [("rev123", { number := some 1, files := [] })] }))
      (fun _ _ => Except.ok (42 : Nat))
      "12345" none (some "Looks good") (some [("Code-Review", 1)])
      (some [{ path := some "a/file.py", line := none, range := none, message := "Nice" }])
      (some "OWNER_REVIEWERS")).2
    { project := some "p"
      current_revision := some "rev123"
      revisions := [("rev123", { number := some 1, files := [] })] }
    "rev123" { number := some 1, files := [] }
    [("a/file.py", [{ line := none, range := none, message := "Nice" }])]
    42 (by decide) rfl rfl rfl rfl

end GerritMCP
